import Mathlib

/-!
Verification of the ConnectWise ↔ PagerDuty synchronization bridge (CW-PD).

Shallow embedding of the repository's decision logic:
* `verifyPagerDutySignature` — src/routes/pagerduty.js (signature gate);
* `resolveResolutionNote` — src/routes/pagerduty.js (resolution-note selection);
* `createIncident` — src/services/pagerdutyService.js, second revision
  (dedup lock, Technical-Support keyword gate, strict priority gate);
* `mapPriorityV1` / `buildTitleV1` — src/services/pagerdutyService.js, first
  revision (P5-default priority policy);
* `cwWebhookSync` / `cwWebhookSyncRetry` — the ConnectWise webhook handler in
  src/routes/connectwise.js and its retry-once revision.

Network calls are modelled by outcome oracles (`Except`/flags); crypto is an
abstract hash parameter; the PagerDuty remote is a list of incidents queried
by `incident_key`.
-/

namespace CWPD

/-- A PagerDuty incident as seen by the bridge: identifier, external
correlation key (`incident_key`), lifecycle status string. -/
structure Incident where
  id : String
  incident_key : String
  status : String
  deriving DecidableEq, Repr

/-- A ConnectWise ticket as read by the bridge: numeric id, optional board
name, status name, priority name, summary and description (absent fields are
`none`, mirroring JS `undefined`). -/
structure Ticket where
  id : Nat
  boardName : Option String
  statusName : Option String
  priorityName : Option String
  summary : Option String
  description : Option String
  deriving DecidableEq, Repr

/-- A PagerDuty incident note (`content` field). -/
structure PDNote where
  content : String
  deriving DecidableEq, Repr

/-- The environment variables the service reads: PagerDuty service ids and
priority ids per bucket. -/
structure Env where
  serviceTS : String
  serviceSOC : String
  serviceNOC : String
  prioP1 : String
  prioP2 : String
  prioP3 : String
  prioP4 : String
  prioP5 : String
  deriving Repr

/-- JS truthiness of an optional string: `undefined` and `""` are falsy. -/
def truthy : Option String → Bool
  | none => false
  | some s => s ≠ ""

/-! ### Character-list string primitives

Executable models of the JS string operations used by the bridge
(`trim`, `toLowerCase`, `split(",")`, `startsWith`), written over `List Char`
so that concrete instances evaluate inside the kernel. -/

/-- `trim`: strip leading and trailing whitespace. -/
def trimChars (l : List Char) : List Char :=
  ((l.dropWhile Char.isWhitespace).reverse.dropWhile Char.isWhitespace).reverse

/-- JS `String.prototype.trim`. -/
def strTrim (s : String) : String := String.mk (trimChars s.data)

/-- JS `String.prototype.toLowerCase` (per character). -/
def strToLower (s : String) : String := String.mk (s.data.map Char.toLower)

/-- Split a character list on `','`, keeping empty segments, as JS
`split(",")` does. -/
def splitCommaAux : List Char → List Char → List (List Char)
  | [], acc => [acc.reverse]
  | c :: cs, acc =>
    if c == ',' then acc.reverse :: splitCommaAux cs []
    else splitCommaAux cs (c :: acc)

/-- JS `String.prototype.split(",")`. -/
def strSplitComma (s : String) : List String :=
  (splitCommaAux s.data []).map String.mk

/-- Prefix test on character lists. -/
def charPre : List Char → List Char → Bool
  | [], _ => true
  | _ :: _, [] => false
  | a :: as, b :: bs => a == b && charPre as bs

/-- JS `String.prototype.startsWith`. -/
def strStartsWith (s marker : String) : Bool := charPre marker.data s.data

/-- Remote actions the orchestrator can issue, for traces. -/
inductive Action where
  | lookup
  | sleep (ms : Nat)
  | createCall
  | updateCall (id : String) (status : String)
  | noteCall
  deriving DecidableEq, Repr

/-! ## Signature verifier — src/routes/pagerduty.js lines 11–29

`verifyPagerDutySignature(req, secret)`: absent header ⇒ false; otherwise
compute `v1=` + hex HMAC-SHA256 of the raw body under the secret, split the
header on commas, and accept iff some candidate trim-equals the expectation.
Any thrown computation is caught and yields false.  The HMAC itself is
external crypto, abstracted as the function parameter `hmac`; `throws` models
the caught-exception path. -/
def verifyPagerDutySignature (hmac : String → List Nat → String)
    (secret : String) (rawBody : List Nat)
    (signatureHeader : Option String) (throws : Bool) : Bool :=
  match signatureHeader with
  | none => false
  | some header =>
    if throws then false
    else
      let expectedSignature := "v1=" ++ hmac secret rawBody
      (strSplitComma header).any (fun sig => strTrim sig == expectedSignature)

/-! ## getIncidentByKey — src/services/pagerdutyService.js lines 296–308

`GET /incidents?incident_key=key` (axios throws on network error or non-2xx);
the catch returns null; otherwise `res.data?.incidents?.[0] || null`. -/
def getIncidentByKey (response : Except Unit (List Incident)) :
    Option Incident :=
  match response with
  | .error _ => none
  | .ok incidents => incidents.head?

/-- The incidents the PagerDuty API returns for an `incident_key` query:
those whose key equals the query. -/
def queryIncidents (remote : List Incident) (key : String) : List Incident :=
  remote.filter (fun i => i.incident_key == key)

/-! ## Priority mapping — src/services/pagerdutyService.js

First revision (lines 27–49): buckets P1–P4 with a default P5 bucket.
Second revision (lines 205–226): same P1–P3 buckets, anything else skipped. -/

/-- Urgency and human-readable priority code fixed by a bucket. -/
structure PriorityResult where
  urgency : String
  priorityCode : String
  deriving DecidableEq, Repr

/-- First-revision priority mapping (lines 28–49): name is lower-cased
(`(ticket.priority?.name || "").toLowerCase()`), matched against the fixed
bucket lists, defaulting to P5 with low urgency. -/
def mapPriorityV1 (priorityNameOpt : Option String) : PriorityResult :=
  let priorityName := strToLower (priorityNameOpt.getD "")
  if ["1a - emergency", "1b - emergency"].contains priorityName then
    ⟨"high", "P1"⟩
  else if ["2a - critical", "2b - critical", "2c - critical"].contains priorityName then
    ⟨"high", "P2"⟩
  else if ["3 - high"].contains priorityName then
    ⟨"high", "P3"⟩
  else if ["4a - normal", "4b - normal", "4c - normal"].contains priorityName then
    ⟨"low", "P4"⟩
  else
    ⟨"low", "P5"⟩

/-- Second-revision priority mapping (lines 206–226): buckets P1–P3 only;
any other priority makes `createIncident` return null (modelled as `none`). -/
def mapPriorityV2 (priorityNameOpt : Option String) : Option PriorityResult :=
  let priorityName := strToLower (priorityNameOpt.getD "")
  if ["1a - emergency", "1b - emergency"].contains priorityName then
    some ⟨"high", "P1"⟩
  else if ["2a - critical", "2b - critical", "2c - critical"].contains priorityName then
    some ⟨"high", "P2"⟩
  else if ["3 - high"].contains priorityName then
    some ⟨"high", "P3"⟩
  else
    none

/-- Collapse every whitespace run to a single space, as the regex
`replace(/\s+/g, " ")` does: the first character of a run emits `' '`, the
rest of the run is skipped (`inRun` remembers whether the previous character
was whitespace). -/
def collapseWsAux : Bool → List Char → List Char
  | _, [] => []
  | inRun, c :: cs =>
    if c.isWhitespace then
      if inRun then collapseWsAux true cs
      else ' ' :: collapseWsAux true cs
    else c :: collapseWsAux false cs

/-- `replace(/\s+/g, " ")` over a character list. -/
def collapseWs (l : List Char) : List Char := collapseWsAux false l

/-- `(ticket.summary || "No summary").replace(/\s+/g, " ").trim()`
(line 52 / line 228). -/
def cleanSummary (summary : Option String) : String :=
  strTrim (String.mk (collapseWs ((summary.getD "No summary").data)))

/-- Incident title (line 53 / line 229):
`` `${priorityCode} | #${ticket.id} - ${summary}` ``. -/
def buildTitleV1 (ticket : Ticket) : String :=
  (mapPriorityV1 ticket.priorityName).priorityCode ++ " | #" ++
    toString ticket.id ++ " - " ++ cleanSummary ticket.summary

/-! ## Technical-Support keyword gate — pagerdutyService.js lines 182–195 -/

/-- Substring test on character lists. -/
def charSub (needle : List Char) : List Char → Bool
  | [] => charPre needle []
  | c :: cs => charPre needle (c :: cs) || charSub needle cs

/-- Case-insensitive substring containment, modelling
`new RegExp(kw, "i").test(summary)` for keywords free of regex
metacharacters. -/
def containsCI (haystack needle : String) : Bool :=
  charSub (strToLower needle).data (strToLower haystack).data

/-- The allowed Technical-Support keywords (lines 184–188). -/
def allowedKeywords : List String :=
  ["via Critical", "via Non Critical", "via Technical Support"]

/-- Board → service resolution of the second revision (lines 181–203),
including the Technical-Support keyword gate. -/
inductive BoardResult where
  | service (sid : String)
  | keywordSkip
  | unmapped
  deriving DecidableEq, Repr

/-- Lines 181–203: `ticket.board?.name` dispatch; on "Technical Support" the
summary must contain an allowed keyword case-insensitively, else the call
returns null; unknown boards throw. -/
def boardService (env : Env) (ticket : Ticket) : BoardResult :=
  if ticket.boardName == some "Technical Support" then
    if allowedKeywords.any (fun kw => containsCI (ticket.summary.getD "") kw) then
      .service env.serviceTS
    else
      .keywordSkip
  else if ticket.boardName == some "Security Operations Center" then
    .service env.serviceSOC
  else if ticket.boardName == some "Alerts" then
    .service env.serviceNOC
  else
    .unmapped

/-! ## createIncident — src/services/pagerdutyService.js lines 161–269
(second revision, with the in-flight lock and the admission gates) -/

/-- Outcome oracle for one `createIncident` run: whether the lookup `GET`
throws, what the create `POST` does, and whether the notes `POST` throws. -/
inductive CreateOutcome where
  | httpError
  | noIncident
  | created (newId : String)
  deriving DecidableEq, Repr

/-- Network outcomes for the remote calls a single `createIncident` run can
issue. -/
structure Oracle where
  lookupFails : Bool
  createOutcome : CreateOutcome
  noteFails : Bool
  deriving Repr

/-- JS `Set.delete key`: a `Set` holds no duplicates, so deleting the key
removes every occurrence. -/
def setDelete (lock : List String) (key : String) : List String :=
  lock.filter (fun k => k != key)

/-- Everything one `createIncident` call leaves behind: its return value
(`.error` = thrown, `.ok none` = policy skip, `.ok (some i)` = incident),
the remote incident list afterwards, the lock set afterwards, the remote
calls issued, and whether the caller took the contended wait path
(`waited`) or inserted the key itself (`inserted`). -/
structure CreateResult where
  result : Except Unit (Option Incident)
  remote : List Incident
  lock : List String
  calls : List Action
  waited : Bool
  inserted : Bool
  deriving Repr

/-- The `finally` block of `createIncident` (line 267): every exit deletes
the correlation key from the lock set. -/
def finishCreate (r : Except Unit (Option Incident)) (remote : List Incident)
    (lock1 : List String) (key : String) (calls : List Action)
    (waited : Bool) : CreateResult :=
  ⟨r, remote, setDelete lock1 key, calls, waited, !waited⟩

/-- `createIncident(ticket)` of the second revision (lines 161–269):
lock check (wait without inserting when contended, insert otherwise),
re-check by correlation key via `getIncidentByKey`, board/keyword gate,
strict P1–P3 priority gate, create `POST`, optional note `POST`, and the
unconditional `finally` delete. A successful create appends the new incident
(server-assigned id from the oracle, PagerDuty starts it `triggered`) to the
remote list. -/
def createIncident (env : Env) (o : Oracle) (remote : List Incident)
    (lock : List String) (ticket : Ticket) : CreateResult :=
  let incidentKey := "CW-" ++ toString ticket.id
  let waited := lock.contains incidentKey
  let lock1 := if waited then lock else incidentKey :: lock
  match getIncidentByKey
      (if o.lookupFails then .error () else .ok (queryIncidents remote incidentKey)) with
  | some existing =>
    finishCreate (.ok (some existing)) remote lock1 incidentKey [.lookup] waited
  | none =>
    match boardService env ticket with
    | .keywordSkip =>
      finishCreate (.ok none) remote lock1 incidentKey [.lookup] waited
    | .unmapped =>
      finishCreate (.error ()) remote lock1 incidentKey [.lookup] waited
    | .service _sid =>
      match mapPriorityV2 ticket.priorityName with
      | none =>
        finishCreate (.ok none) remote lock1 incidentKey [.lookup] waited
      | some _pr =>
        match o.createOutcome with
        | .httpError =>
          finishCreate (.error ()) remote lock1 incidentKey
            [.lookup, .createCall] waited
        | .noIncident =>
          finishCreate (.error ()) remote lock1 incidentKey
            [.lookup, .createCall] waited
        | .created newId =>
          let newInc : Incident := ⟨newId, incidentKey, "triggered"⟩
          let remote' := remote ++ [newInc]
          if truthy ticket.description then
            if o.noteFails then
              finishCreate (.error ()) remote' lock1 incidentKey
                [.lookup, .createCall, .noteCall] waited
            else
              finishCreate (.ok (some newInc)) remote' lock1 incidentKey
                [.lookup, .createCall, .noteCall] waited
          else
            finishCreate (.ok (some newInc)) remote' lock1 incidentKey
              [.lookup, .createCall] waited

/-! ## Resolution-note selection — src/routes/pagerduty.js lines 189–235 -/

/-- Strip the regex `/^Resolution Note:\s*/i`: a case-insensitive literal
marker anchored at the start, plus any following whitespace. -/
def stripResolutionMarker (s : String) : String :=
  if strStartsWith (strToLower s) "resolution note:" then
    String.mk ((s.data.drop "resolution note:".data.length).dropWhile Char.isWhitespace)
  else s

/-- Whether a note's trimmed content starts with the literal marker
(`note.content?.trim().startsWith("Resolution Note:")`, line 210). -/
def hasResolutionMarker (note : PDNote) : Bool :=
  strStartsWith (strTrim note.content) "Resolution Note:"

/-- Lines 189–235: start from the fixed fallback `"Resolved in PagerDuty"`;
on fetch failure keep it; otherwise `find` the first note whose trimmed
content starts with `"Resolution Note:"` and return it with the marker
stripped and trimmed; else take the last note's trimmed content when truthy,
the fallback when not; empty list keeps the fallback. -/
def resolveResolutionNote (fetch : Except Unit (List PDNote)) : String :=
  match fetch with
  | .error _ => "Resolved in PagerDuty"
  | .ok notes =>
    if notes.length > 0 then
      match notes.find? hasResolutionMarker with
      | some entry => strTrim (stripResolutionMarker entry.content)
      | none =>
        let latestNote := strTrim ((notes.getLastD ⟨""⟩).content)
        if latestNote == "" then "Resolved in PagerDuty" else latestNote
    else
      "Resolved in PagerDuty"

/-! ## ConnectWise webhook handler — incident-sync step

Two revisions with the same found-incident branch: src/routes/connectwise.js
lines 129–160 (single lookup) and the retry-once revision lines 78–122
(second lookup after a 2000 ms delay when the first finds nothing). Both
are modelled from the point where the correlation key is formed, as the
trace of remote calls issued, given the lookup results as oracles. -/

/-- `TRIGGER_STATUSES` (connectwise.js lines 104–113). -/
def TRIGGER_STATUSES : List String :=
  ["New", "Re-Opened", "Detection: Waiting IRT Assignment",
   "Detection: Augmentt", "Detection: Nodeware", "New (email connector)",
   "New (Portal)", "New (Chat)"]

/-- `RESOLVE_STATUSES` (connectwise.js lines 115–127). -/
def RESOLVE_STATUSES : List String :=
  ["Cancelled", "Cancelled: Duplicate", "Cancelled: Child Ticket",
   "Cancelled: Self Resolved", "Completed: Resolved",
   "Completed: No Reply (Client)", "Completed: Do Not Notify",
   "Returned To Normal", "Completed: Marked by Client",
   "Completed: No Response", "Chat Abandoned"]

/-- Found-incident branch shared by both revisions (connectwise.js lines
142–159): trigger status on a resolved incident ⇒ create a new incident;
resolve status on a non-resolved incident ⇒ update it to resolved;
everything else is a logged no-op. `status` is the trimmed ticket status. -/
def foundBranch (inc : Incident) (status : String) : List Action :=
  if TRIGGER_STATUSES.contains status then
    if inc.status == "resolved" then [.createCall] else []
  else if RESOLVE_STATUSES.contains status then
    if inc.status != "resolved" then [.updateCall inc.id "resolved"] else []
  else []

/-- connectwise.js revision (lines 129–160): one lookup; not found ⇒ create
immediately; found ⇒ the shared branch. `l1` is the first lookup's result,
`statusName` is `ticket.status?.name` (trimmed by the handler, line 101). -/
def cwWebhookSync (l1 : Option Incident) (statusName : Option String) :
    List Action :=
  let status := strTrim (statusName.getD "")
  match l1 with
  | none => [.lookup, .createCall]
  | some inc => .lookup :: foundBranch inc status

/-- Retry-once revision (lines 78–122): when the first lookup finds nothing,
sleep 2000 ms and look up again; only if the second also finds nothing is a
new incident created. -/
def cwWebhookSyncRetry (l1 l2 : Option Incident)
    (statusName : Option String) : List Action :=
  let status := strTrim (statusName.getD "")
  match l1 with
  | some inc => .lookup :: foundBranch inc status
  | none =>
    match l2 with
    | none => [.lookup, .sleep 2000, .lookup, .createCall]
    | some inc => [.lookup, .sleep 2000, .lookup] ++ foundBranch inc status

/-! ## Helper lemmas -/

/-- A character list is a `charPre`-prefix of itself followed by anything. -/
theorem charPre_append (l m : List Char) : charPre l (l ++ m) = true := by
  induction l with
  | nil => rfl
  | cons a as ih => simp [charPre, ih]

/-- `startsWith` holds for the first summand of an append. -/
theorem strStartsWith_append (a b : String) :
    strStartsWith (a ++ b) a = true := by
  unfold strStartsWith
  rw [String.data_append]
  exact charPre_append _ _

/-- Deleting a key from the lock set removes it (membership form). -/
theorem not_mem_setDelete_self (l : List String) (k : String) :
    k ∉ setDelete l k := by
  simp [setDelete, List.mem_filter]

/-- Deleting a key from the lock set removes it. -/
theorem setDelete_contains_self (l : List String) (k : String) :
    (setDelete l k).contains k = false := by
  simp only [List.contains, List.elem_eq_mem, decide_eq_false_iff_not]
  exact not_mem_setDelete_self l k

/-- Every exit of `createIncident` goes through `finishCreate`, so the
result fields `waited`, `inserted` and the lock are uniform across
branches. -/
theorem createIncident_waited (env : Env) (o : Oracle) (remote : List Incident)
    (lock : List String) (ticket : Ticket) :
    (createIncident env o remote lock ticket).waited =
      lock.contains ("CW-" ++ toString ticket.id) := by
  unfold createIncident
  dsimp only
  repeat' split
  all_goals rfl

/-- The contended path never inserts; the uncontended path does. -/
theorem createIncident_inserted (env : Env) (o : Oracle)
    (remote : List Incident) (lock : List String) (ticket : Ticket) :
    (createIncident env o remote lock ticket).inserted =
      !lock.contains ("CW-" ++ toString ticket.id) := by
  unfold createIncident
  dsimp only
  repeat' split
  all_goals rfl

/-- The `finally` delete leaves the correlation key out of the lock set on
every exit path. -/
theorem createIncident_lock_self (env : Env) (o : Oracle)
    (remote : List Incident) (lock : List String) (ticket : Ticket) :
    ((createIncident env o remote lock ticket).lock).contains
      ("CW-" ++ toString ticket.id) = false := by
  unfold createIncident
  dsimp only
  repeat' split
  all_goals exact setDelete_contains_self _ _

/-! ## Claim theorems -/

/-- C1: Signature verification succeeds if and only if the signature header
is present, the computation does not throw, and at least one comma-separated
candidate, after trimming whitespace, string-equals `v1=` followed by the
hex HMAC-SHA256 of the exact raw request body under the resolved secret;
absent header, a throwing computation, or no matching candidate all yield
`false`. -/
theorem C1_signature_verification_iff (hmac : String → List Nat → String)
    (secret : String) (rawBody : List Nat) (hdr : Option String)
    (throws : Bool) :
    verifyPagerDutySignature hmac secret rawBody hdr throws = true ↔
      ∃ header, hdr = some header ∧ throws = false ∧
        ∃ candidate ∈ strSplitComma header,
          strTrim candidate = "v1=" ++ hmac secret rawBody := by
  cases hdr with
  | none => simp [verifyPagerDutySignature]
  | some header =>
    cases throws with
    | false =>
      simp [verifyPagerDutySignature, List.any_eq_true, beq_iff_eq]
    | true => simp [verifyPagerDutySignature]

/-- C6: on every exit path of `createIncident` — successful creation, policy
skip returning null, or thrown failure — the ticket's correlation key is
absent from the in-flight lock set after the call finishes; removal is
unconditional (the `finally` block). -/
theorem C6_lock_always_released (env : Env) (o : Oracle)
    (remote : List Incident) (lock : List String) (ticket : Ticket) :
    ((createIncident env o remote lock ticket).lock).contains
      ("CW-" ++ toString ticket.id) = false :=
  createIncident_lock_self env o remote lock ticket

/-- C9: a caller entering `createIncident` while its correlation key is
already in the lock set waits and proceeds without inserting the key, yet
its exit path still deletes the key — removing the entry inserted by the
concurrent first caller — so a subsequent third caller entering with the
resulting set is no longer excluded (it takes the non-contended insert
path). -/
theorem C9_contended_caller_deletes_foreign_lock (env env' : Env)
    (o o' : Oracle) (remote remote' : List Incident) (lock : List String)
    (ticket : Ticket)
    (h : lock.contains ("CW-" ++ toString ticket.id) = true) :
    (createIncident env o remote lock ticket).waited = true ∧
    (createIncident env o remote lock ticket).inserted = false ∧
    ((createIncident env o remote lock ticket).lock).contains
      ("CW-" ++ toString ticket.id) = false ∧
    (createIncident env' o' remote'
      (createIncident env o remote lock ticket).lock ticket).waited = false ∧
    (createIncident env' o' remote'
      (createIncident env o remote lock ticket).lock ticket).inserted = true := by
  refine ⟨?_, ?_, createIncident_lock_self _ _ _ _ _, ?_, ?_⟩
  · rw [createIncident_waited, h]
  · rw [createIncident_inserted, h]; rfl
  · rw [createIncident_waited, createIncident_lock_self]
  · rw [createIncident_inserted, createIncident_lock_self]; rfl

/-- Witness for C9 at a concrete contended state: ticket 5's key is already
locked, so the call waits, does not insert, and still clears the key. -/
theorem C9_contended_caller_deletes_foreign_lock_witness :
    (["CW-5"] : List String).contains ("CW-" ++ toString (5 : Nat)) = true ∧
    (createIncident ⟨"ts", "soc", "noc", "p1", "p2", "p3", "p4", "p5"⟩
      ⟨false, .created "N", false⟩ [] ["CW-5"]
      ⟨5, some "Alerts", some "New", some "1a - Emergency", some "s", none⟩).waited
      = true :=
  ⟨by decide,
    (C9_contended_caller_deletes_foreign_lock
      ⟨"ts", "soc", "noc", "p1", "p2", "p3", "p4", "p5"⟩
      ⟨"ts", "soc", "noc", "p1", "p2", "p3", "p4", "p5"⟩
      ⟨false, .created "N", false⟩ ⟨false, .created "N", false⟩ [] [] ["CW-5"]
      ⟨5, some "Alerts", some "New", some "1a - Emergency", some "s", none⟩
      (by decide)).1⟩

/-- C10: `getIncidentByKey` returns null on every lookup failure (network
error or non-success response, both of which make the HTTP call throw)
rather than propagating the error; at the webhook call site a failed lookup
is indistinguishable from a truly absent incident and the orchestrator
proceeds to create a new incident. -/
theorem C10_lookup_failure_is_null_and_creates :
    getIncidentByKey (.error ()) = none ∧
    getIncidentByKey (.ok []) = none ∧
    (∀ statusName, cwWebhookSync (getIncidentByKey (.error ())) statusName =
      cwWebhookSync (getIncidentByKey (.ok [])) statusName) ∧
    (∀ statusName, Action.createCall ∈
      cwWebhookSync (getIncidentByKey (.error ())) statusName) := by
  refine ⟨rfl, rfl, fun _ => rfl, fun statusName => ?_⟩
  simp [getIncidentByKey, cwWebhookSync]

/-- The trigger and resolve status lists are disjoint: a status in the
resolve set is never in the trigger set. -/
theorem resolve_not_trigger (s : String) (h : s ∈ RESOLVE_STATUSES) :
    s ∉ TRIGGER_STATUSES := by
  simp only [RESOLVE_STATUSES, List.mem_cons, List.not_mem_nil, or_false] at h
  rcases h with h | h | h | h | h | h | h | h | h | h | h <;> subst h <;> decide

/-- C2: for a webhook whose correlation key resolves to an existing remote
incident, the connectwise.js handler (lines 129–160): creates a new incident
when the remote incident is resolved and the ticket status is in the trigger
set; resolves the remote incident when it is not resolved and the ticket
status is in the resolve set; makes no create/update call when the incident
is not resolved and the status is in the trigger set, or when the status is
in neither set. -/
theorem C2_found_incident_branching (inc : Incident)
    (statusName : Option String) :
    (strTrim (statusName.getD "") ∈ TRIGGER_STATUSES →
      inc.status = "resolved" →
      cwWebhookSync (some inc) statusName = [.lookup, .createCall]) ∧
    (strTrim (statusName.getD "") ∈ RESOLVE_STATUSES →
      inc.status ≠ "resolved" →
      cwWebhookSync (some inc) statusName =
        [.lookup, .updateCall inc.id "resolved"]) ∧
    (strTrim (statusName.getD "") ∈ TRIGGER_STATUSES →
      inc.status ≠ "resolved" →
      cwWebhookSync (some inc) statusName = [.lookup]) ∧
    (strTrim (statusName.getD "") ∉ TRIGGER_STATUSES →
      strTrim (statusName.getD "") ∉ RESOLVE_STATUSES →
      cwWebhookSync (some inc) statusName = [.lookup]) := by
  refine ⟨?_, ?_, ?_, ?_⟩
  · intro ht hr
    simp [cwWebhookSync, foundBranch, ht, hr]
  · intro hrv hne
    have ht := resolve_not_trigger _ hrv
    simp [cwWebhookSync, foundBranch, ht, hrv, hne]
  · intro ht hne
    simp [cwWebhookSync, foundBranch, ht, hne]
  · intro ht hrv
    simp [cwWebhookSync, foundBranch, ht, hrv]

/-- Witness for C2: a resolved incident with trigger status "New" makes the
handler issue a create call. -/
theorem C2_found_incident_branching_witness :
    strTrim ((some "New").getD "") ∈ TRIGGER_STATUSES ∧
    cwWebhookSync (some ⟨"I1", "CW-5", "resolved"⟩) (some "New") =
      [.lookup, .createCall] :=
  ⟨by decide,
    (C2_found_incident_branching ⟨"I1", "CW-5", "resolved"⟩ (some "New")).1
      (by decide) rfl⟩

/-- C7 counterexample: in the connectwise.js revision of the webhook handler
(lines 129–136), a single lookup that finds nothing is immediately followed
by a create call — exactly one lookup happens, with no retry and no delay,
before creation. -/
theorem C7_counterexample_single_lookup_create :
    cwWebhookSync none (some "New") = [.lookup, .createCall] ∧
    (cwWebhookSync none (some "New")).count .lookup = 1 ∧
    (cwWebhookSync none (some "New")).count (.sleep 2000) = 0 := by
  refine ⟨rfl, by decide, by decide⟩

/-- C7 amended: only the retry revision of the handler (src/unnamed/part_000
lines 79–95) retries the lookup exactly once after a fixed 2000 ms delay
before concluding the incident is truly absent and creating a new one; the
connectwise.js revision creates after a single failed lookup. -/
theorem C7_retry_once_before_create (statusName : Option String) :
    (cwWebhookSyncRetry none none statusName =
      [.lookup, .sleep 2000, .lookup, .createCall]) ∧
    ((cwWebhookSyncRetry none none statusName).count .lookup = 2) ∧
    (∀ inc, Action.createCall ∉ foundBranch inc (strTrim (statusName.getD "")) →
      Action.createCall ∉ cwWebhookSyncRetry none (some inc) statusName) ∧
    (cwWebhookSync none statusName = [.lookup, .createCall]) := by
  refine ⟨rfl, rfl, ?_, rfl⟩
  intro inc h
  simpa [cwWebhookSyncRetry] using h

/-- Witness for C7's amended statement: the retry path at ticket status
"New", and no create call when the retry finds an active incident. -/
theorem C7_retry_once_before_create_witness :
    cwWebhookSyncRetry none none (some "New") =
      [.lookup, .sleep 2000, .lookup, .createCall] ∧
    Action.createCall ∉
      cwWebhookSyncRetry none (some ⟨"I1", "CW-5", "acknowledged"⟩) (some "New") :=
  ⟨(C7_retry_once_before_create (some "New")).1,
   (C7_retry_once_before_create (some "New")).2.2.1
     ⟨"I1", "CW-5", "acknowledged"⟩ (by decide)⟩

/-- `find?` returns the first element satisfying the predicate: with a
clean prefix, it returns `entry`. -/
theorem find?_first_marker (pre : List PDNote) (entry : PDNote)
    (post : List PDNote)
    (hpre : ∀ m ∈ pre, hasResolutionMarker m = false)
    (hentry : hasResolutionMarker entry = true) :
    (pre ++ entry :: post).find? hasResolutionMarker = some entry := by
  induction pre with
  | nil => simp [hentry]
  | cons a as ih =>
    have ha := hpre a (List.mem_cons_self a as)
    rw [List.cons_append, List.find?_cons_of_neg _ (by simp [ha])]
    exact ih (fun m hm => hpre m (List.mem_cons_of_mem a hm))

/-- C4 counterexample: with two notes both carrying the marker, the resolver
returns the FIRST one's text (`find` scans in order), not the latest one's,
so "selects the latest note whose text starts with the marker" fails at
notes `["Resolution Note: A", "Resolution Note: B"]`. -/
theorem C4_counterexample_first_marker_note_wins :
    resolveResolutionNote
        (.ok [⟨"Resolution Note: A"⟩, ⟨"Resolution Note: B"⟩]) = "A" ∧
    resolveResolutionNote
        (.ok [⟨"Resolution Note: A"⟩, ⟨"Resolution Note: B"⟩]) ≠ "B" :=
  ⟨by decide, by decide⟩

/-- C4 amended: the resolver selects, among the fetched notes, the FIRST
note (in fetched order) whose trimmed text starts with the literal marker
`"Resolution Note:"` and returns its text with the marker stripped and
trimmed; if no note carries the marker it returns the chronologically last
note's trimmed text when that is non-empty and the fixed fallback string
when it is empty; if the notes list is empty, or the fetch fails, it
returns the fixed fallback string. -/
theorem C4_resolution_note_selection :
    (resolveResolutionNote (.error ()) = "Resolved in PagerDuty") ∧
    (resolveResolutionNote (.ok []) = "Resolved in PagerDuty") ∧
    (∀ pre entry post, (∀ m ∈ pre, hasResolutionMarker m = false) →
      hasResolutionMarker entry = true →
      resolveResolutionNote (.ok (pre ++ entry :: post)) =
        strTrim (stripResolutionMarker entry.content)) ∧
    (∀ notes lastN, (∀ m ∈ notes, hasResolutionMarker m = false) →
      notes.getLast? = some lastN → strTrim lastN.content ≠ "" →
      resolveResolutionNote (.ok notes) = strTrim lastN.content) ∧
    (∀ notes lastN, (∀ m ∈ notes, hasResolutionMarker m = false) →
      notes.getLast? = some lastN → strTrim lastN.content = "" →
      resolveResolutionNote (.ok notes) = "Resolved in PagerDuty") := by
  refine ⟨rfl, rfl, ?_, ?_, ?_⟩
  · intro pre entry post hpre hentry
    have hfind := find?_first_marker pre entry post hpre hentry
    have hlen : 0 < (pre ++ entry :: post).length := by simp
    simp [resolveResolutionNote, hfind, hlen]
  · intro notes lastN hnone hlast hne
    have hfind : notes.find? hasResolutionMarker = none :=
      List.find?_eq_none.mpr (fun x hx => by simp [hnone x hx])
    have hne' : notes ≠ [] := by rintro rfl; simp at hlast
    have hlen : 0 < notes.length := List.length_pos.mpr hne'
    simp [resolveResolutionNote, hfind, hlen, hlast, hne]
  · intro notes lastN hnone hlast heq
    have hfind : notes.find? hasResolutionMarker = none :=
      List.find?_eq_none.mpr (fun x hx => by simp [hnone x hx])
    have hne' : notes ≠ [] := by rintro rfl; simp at hlast
    have hlen : 0 < notes.length := List.length_pos.mpr hne'
    simp [resolveResolutionNote, hfind, hlen, hlast, heq]

/-- Witness for C4 at the spec's own test vector: notes
`["foo", "Resolution Note: bar"]` resolve to `"bar"`. -/
theorem C4_resolution_note_selection_witness :
    resolveResolutionNote (.ok [⟨"foo"⟩, ⟨"Resolution Note: bar"⟩]) = "bar" := by
  have h := C4_resolution_note_selection.2.2.1 [⟨"foo"⟩]
    ⟨"Resolution Note: bar"⟩ []
    (by rintro m hm; rcases List.mem_singleton.mp hm with rfl; decide)
    (by decide)
  exact h

/-- C5: the first-revision priority mapping sends the Emergency names to
P1, the Critical names to P2, `"3 - high"` to P3, the Normal names to P4
and anything else to the default P5; urgency is `high` exactly for P1–P3;
`"1a - Emergency"` yields high/P1 and `"4a - Normal"` yields low/P4; and
the created incident's title starts with the priority code. -/
theorem C5_priority_buckets_and_title :
    (∀ p, strToLower p ∈ ["1a - emergency", "1b - emergency"] →
      mapPriorityV1 (some p) = ⟨"high", "P1"⟩) ∧
    (∀ p, strToLower p ∈ ["2a - critical", "2b - critical", "2c - critical"] →
      mapPriorityV1 (some p) = ⟨"high", "P2"⟩) ∧
    (∀ p, strToLower p = "3 - high" → mapPriorityV1 (some p) = ⟨"high", "P3"⟩) ∧
    (∀ p, strToLower p ∈ ["4a - normal", "4b - normal", "4c - normal"] →
      mapPriorityV1 (some p) = ⟨"low", "P4"⟩) ∧
    (∀ p, strToLower (p.getD "") ∉
        ["1a - emergency", "1b - emergency", "2a - critical", "2b - critical",
         "2c - critical", "3 - high", "4a - normal", "4b - normal",
         "4c - normal"] →
      mapPriorityV1 p = ⟨"low", "P5"⟩) ∧
    (∀ p, (mapPriorityV1 p).urgency = "high" ↔
      (mapPriorityV1 p).priorityCode ∈ ["P1", "P2", "P3"]) ∧
    mapPriorityV1 (some "1a - Emergency") = ⟨"high", "P1"⟩ ∧
    mapPriorityV1 (some "4a - Normal") = ⟨"low", "P4"⟩ ∧
    (∀ t : Ticket, strStartsWith (buildTitleV1 t)
      ((mapPriorityV1 t.priorityName).priorityCode ++ " | #") = true) := by
  refine ⟨?_, ?_, ?_, ?_, ?_, ?_, by decide, by decide, ?_⟩
  · intro p h
    simp only [List.mem_cons, List.not_mem_nil, or_false] at h
    rcases h with h | h <;>
      simp only [mapPriorityV1, Option.getD_some] <;> simp only [h] <;> decide
  · intro p h
    simp only [List.mem_cons, List.not_mem_nil, or_false] at h
    rcases h with h | h | h <;>
      simp only [mapPriorityV1, Option.getD_some] <;> simp only [h] <;> decide
  · intro p h
    simp only [mapPriorityV1, Option.getD_some]
    simp only [h]; decide
  · intro p h
    simp only [List.mem_cons, List.not_mem_nil, or_false] at h
    rcases h with h | h | h <;>
      simp only [mapPriorityV1, Option.getD_some] <;> simp only [h] <;> decide
  · intro p h
    simp only [List.mem_cons, List.not_mem_nil, or_false, not_or] at h
    obtain ⟨h1, h2, h3, h4, h5, h6, h7, h8, h9⟩ := h
    simp [mapPriorityV1, h1, h2, h3, h4, h5, h6, h7, h8, h9]
  · intro p
    unfold mapPriorityV1
    dsimp only
    repeat' split
    all_goals decide
  · intro t
    have h : buildTitleV1 t =
        ((mapPriorityV1 t.priorityName).priorityCode ++ " | #") ++
          (toString t.id ++ (" - " ++ cleanSummary t.summary)) := by
      simp only [buildTitleV1, String.append_assoc]
    rw [h]
    exact strStartsWith_append _ _

/-- Witness for C5: the Emergency bucket at `"1a - Emergency"`, and the
title of a concrete P1 ticket starting with `"P1 | #"`. -/
theorem C5_priority_buckets_and_title_witness :
    mapPriorityV1 (some "1a - Emergency") = ⟨"high", "P1"⟩ ∧
    strStartsWith
      (buildTitleV1 ⟨42, some "Alerts", some "New", some "1a - Emergency",
        some "Issue via Critical outage", none⟩) "P1 | #" = true :=
  ⟨C5_priority_buckets_and_title.1 "1a - Emergency" (by decide),
   C5_priority_buckets_and_title.2.2.2.2.2.2.2.2
     ⟨42, some "Alerts", some "New", some "1a - Emergency",
       some "Issue via Critical outage", none⟩⟩

/-- Under-guard short circuit: when the re-check finds an incident for the
key, `createIncident` returns it and issues no create call. -/
theorem createIncident_short_circuit (env : Env) (o : Oracle)
    (remote : List Incident) (lock : List String) (ticket : Ticket)
    (inc : Incident) (hl : o.lookupFails = false)
    (hq : (queryIncidents remote ("CW-" ++ toString ticket.id)).head? = some inc) :
    (createIncident env o remote lock ticket).result = .ok (some inc) ∧
    Action.createCall ∉ (createIncident env o remote lock ticket).calls := by
  unfold createIncident
  dsimp only
  simp [hl, getIncidentByKey, hq, finishCreate]

/-- Inversion: if a `createIncident` run with a working lookup returned an
incident AND issued a create call, then the remote had no incident for the
key beforehand, the returned incident carries the key, and the remote
afterwards is the old list with the new incident appended. -/
theorem createIncident_created_inversion (env : Env) (o : Oracle)
    (remote : List Incident) (lock : List String) (ticket : Ticket)
    (inc : Incident) (hl : o.lookupFails = false)
    (hres : (createIncident env o remote lock ticket).result = .ok (some inc))
    (hcall : Action.createCall ∈ (createIncident env o remote lock ticket).calls) :
    queryIncidents remote ("CW-" ++ toString ticket.id) = [] ∧
    inc.incident_key = "CW-" ++ toString ticket.id ∧
    (createIncident env o remote lock ticket).remote = remote ++ [inc] := by
  unfold createIncident at hres hcall ⊢
  dsimp only at hres hcall ⊢
  simp only [hl, Bool.false_eq_true, if_false, getIncidentByKey] at hres hcall ⊢
  cases hq : (queryIncidents remote ("CW-" ++ toString ticket.id)).head? with
  | some ex =>
    simp only [hq] at hcall
    simp [finishCreate] at hcall
  | none =>
    have hqe : queryIncidents remote ("CW-" ++ toString ticket.id) = [] :=
      List.head?_eq_none_iff.mp hq
    simp only [hq] at hres hcall ⊢
    cases hb : boardService env ticket with
    | keywordSkip => simp only [hb] at hres; simp [finishCreate] at hres
    | unmapped => simp only [hb] at hres; simp [finishCreate] at hres
    | service sid =>
      simp only [hb] at hres hcall ⊢
      cases hp : mapPriorityV2 ticket.priorityName with
      | none => simp only [hp] at hres; simp [finishCreate] at hres
      | some pr =>
        simp only [hp] at hres hcall ⊢
        cases hc : o.createOutcome with
        | httpError => simp only [hc] at hres; simp [finishCreate] at hres
        | noIncident => simp only [hc] at hres; simp [finishCreate] at hres
        | created newId =>
          simp only [hc] at hres ⊢
          by_cases hd : truthy ticket.description = true
          · by_cases hn : o.noteFails = true
            · simp [hd, hn, finishCreate] at hres
            · simp only [Bool.not_eq_true] at hn
              simp only [hd, hn, if_true, Bool.false_eq_true, if_false,
                finishCreate] at hres ⊢
              obtain rfl : inc = ⟨newId, "CW-" ++ toString ticket.id, "triggered"⟩ :=
                (Option.some.inj (Except.ok.inj hres)).symm
              exact ⟨hqe, rfl, rfl⟩
          · simp only [Bool.not_eq_true] at hd
            simp only [hd, Bool.false_eq_true, if_false, finishCreate] at hres ⊢
            obtain rfl : inc = ⟨newId, "CW-" ++ toString ticket.id, "triggered"⟩ :=
              (Option.some.inj (Except.ok.inj hres)).symm
            exact ⟨hqe, rfl, rfl⟩

/-- C3: inside `createIncident`, after acquiring (or waiting on) the guard,
remote existence is re-checked by the correlation key; if an incident with
that key already exists, that existing incident is returned and no create
call is issued. Moreover, a second caller for the same key, run after a
first caller that actually created the incident, observes the first
caller's incident and issues no create call of its own. -/
theorem C3_creation_idempotent_per_key (env : Env) (o1 o2 : Oracle)
    (remote : List Incident) (lock lock2 : List String) (ticket : Ticket)
    (inc : Incident) :
    (o1.lookupFails = false →
      (queryIncidents remote ("CW-" ++ toString ticket.id)).head? = some inc →
      (createIncident env o1 remote lock ticket).result = .ok (some inc) ∧
      Action.createCall ∉ (createIncident env o1 remote lock ticket).calls) ∧
    (o1.lookupFails = false → o2.lookupFails = false →
      (createIncident env o1 remote lock ticket).result = .ok (some inc) →
      Action.createCall ∈ (createIncident env o1 remote lock ticket).calls →
      (createIncident env o2 (createIncident env o1 remote lock ticket).remote
          lock2 ticket).result = .ok (some inc) ∧
      Action.createCall ∉ (createIncident env o2
          (createIncident env o1 remote lock ticket).remote lock2 ticket).calls) := by
  constructor
  · intro hl hq
    exact createIncident_short_circuit env o1 remote lock ticket inc hl hq
  · intro hl1 hl2 hres hcall
    obtain ⟨hqe, hkey, hrem⟩ :=
      createIncident_created_inversion env o1 remote lock ticket inc hl1 hres hcall
    have hq2 : (queryIncidents ((createIncident env o1 remote lock ticket).remote)
        ("CW-" ++ toString ticket.id)).head? = some inc := by
      rw [hrem]
      unfold queryIncidents at hqe ⊢
      rw [List.filter_append, hqe]
      simp [hkey]
    exact createIncident_short_circuit env o2 _ lock2 ticket inc hl2 hq2

/-- Witness for C3: with an incident already remote under key `CW-9`, the
call returns it and issues no create call. -/
theorem C3_creation_idempotent_per_key_witness :
    (createIncident ⟨"ts", "soc", "noc", "p1", "p2", "p3", "p4", "p5"⟩
        ⟨false, .created "N", false⟩ [⟨"EX", "CW-9", "triggered"⟩] []
        ⟨9, some "Alerts", some "New", some "1a - Emergency", some "s", none⟩).result
      = .ok (some ⟨"EX", "CW-9", "triggered"⟩) :=
  ((C3_creation_idempotent_per_key
      ⟨"ts", "soc", "noc", "p1", "p2", "p3", "p4", "p5"⟩
      ⟨false, .created "N", false⟩ ⟨false, .created "N", false⟩
      [⟨"EX", "CW-9", "triggered"⟩] [] []
      ⟨9, some "Alerts", some "New", some "1a - Emergency", some "s", none⟩
      ⟨"EX", "CW-9", "triggered"⟩).1 rfl (by decide)).1

/-- C8 counterexample: a Technical-Support ticket whose summary contains no
allowed keyword does NOT make `createIncident` return null when an incident
for its correlation key already exists remotely — the under-guard re-check
returns that incident before the keyword gate runs. -/
theorem C8_counterexample_existing_incident_beats_gate :
    (allowedKeywords.any (fun kw => containsCI "printer broken" kw)) = false ∧
    (createIncident ⟨"ts", "soc", "noc", "p1", "p2", "p3", "p4", "p5"⟩
        ⟨false, .created "N", false⟩ [⟨"EX", "CW-7", "triggered"⟩] []
        ⟨7, some "Technical Support", some "New", some "1a - Emergency",
          some "printer broken", none⟩).result
      = .ok (some ⟨"EX", "CW-7", "triggered"⟩) ∧
    (Except.ok (some (⟨"EX", "CW-7", "triggered"⟩ : Incident)) ≠
      (Except.ok none : Except Unit (Option Incident))) :=
  ⟨by decide, rfl, by simp⟩

/-- C8 amended: for every Technical-Support ticket whose summary contains
none of the allowed keyword substrings (case-insensitive) and whose
correlation key finds no existing incident at the under-guard re-check,
`createIncident` returns null and issues no remote create call; tickets on
the other allowed boards are not subject to the keyword gate (they resolve
to their service regardless of the summary, and proceed to create when the
other admission conditions hold). -/
theorem C8_technical_support_keyword_gate (env : Env) (o : Oracle)
    (remote : List Incident) (lock : List String) (ticket : Ticket) :
    (o.lookupFails = false →
      queryIncidents remote ("CW-" ++ toString ticket.id) = [] →
      ticket.boardName = some "Technical Support" →
      (allowedKeywords.any
        (fun kw => containsCI (ticket.summary.getD "") kw)) = false →
      (createIncident env o remote lock ticket).result = .ok none ∧
      Action.createCall ∉ (createIncident env o remote lock ticket).calls) ∧
    (ticket.boardName = some "Security Operations Center" →
      boardService env ticket = .service env.serviceSOC) ∧
    (ticket.boardName = some "Alerts" →
      boardService env ticket = .service env.serviceNOC) ∧
    (o.lookupFails = false →
      queryIncidents remote ("CW-" ++ toString ticket.id) = [] →
      ticket.boardName = some "Alerts" →
      mapPriorityV2 ticket.priorityName = some ⟨"high", "P1"⟩ →
      o.createOutcome = .created "N" →
      Action.createCall ∈ (createIncident env o remote lock ticket).calls) := by
  refine ⟨?_, ?_, ?_, ?_⟩
  · intro hl hq hb hk
    have hbs : boardService env ticket = .keywordSkip := by
      simp [boardService, hb, hk]
    unfold createIncident
    dsimp only
    simp [hl, getIncidentByKey, hq, hbs, finishCreate]
  · intro hb
    simp [boardService, hb]
  · intro hb
    simp [boardService, hb]
  · intro hl hq hb hp hc
    have hbs : boardService env ticket = .service env.serviceNOC := by
      simp [boardService, hb]
    unfold createIncident
    dsimp only
    simp only [hl, Bool.false_eq_true, if_false, getIncidentByKey, hq,
      List.head?_nil, hbs, hp, hc]
    by_cases hd : truthy ticket.description = true
    · by_cases hn : o.noteFails = true
      · simp [hd, hn, finishCreate]
      · simp only [Bool.not_eq_true] at hn
        simp [hd, hn, finishCreate]
    · simp only [Bool.not_eq_true] at hd
      simp [hd, finishCreate]

/-- Witness for C8: a Technical-Support ticket with summary `"hello"` (no
keywords) and an empty remote is skipped with a null result. -/
theorem C8_technical_support_keyword_gate_witness :
    (createIncident ⟨"ts", "soc", "noc", "p1", "p2", "p3", "p4", "p5"⟩
        ⟨false, .created "N", false⟩ [] []
        ⟨7, some "Technical Support", some "New", some "1a - Emergency",
          some "hello", none⟩).result = .ok none :=
  ((C8_technical_support_keyword_gate
      ⟨"ts", "soc", "noc", "p1", "p2", "p3", "p4", "p5"⟩
      ⟨false, .created "N", false⟩ [] []
      ⟨7, some "Technical Support", some "New", some "1a - Emergency",
        some "hello", none⟩).1 rfl rfl rfl (by decide)).1

end CWPD
